import Mathlib

/-!
Shallow embedding of the CloudConfigRK library (src/CloudConfigRK.h,
src/CloudConfigRK.cpp): the persistent configuration store
(`CloudConfigStorageData`), the JSON index lookup helper, the EEPROM
storage backend, and the `CloudConfig` synchronization state machine.

Machine integers are modelled as `Nat` with explicit `% 2^w` where the C
code's wraparound matters.  The target platform (Particle, 32-bit ARM) has
32-bit `unsigned long`, `long` and `size_t`; `sizeof(CloudConfigDataHeader)`
is 20 bytes.  The JSON parser (`JSONValue::parseCopy`) is external to the
repository, so the parsed tree is kept abstract: definitions are
parameterized by a type `J` and a parse function `List Nat → J` applied to
the C string held in the buffer, exactly where the source calls `parse()`.
Byte buffers are `List Nat`; a payload argument `json : List Nat` stands
for the contents of a C string (its bytes up to, not including, the
terminator).
-/

/-- `2^32`, the modulus of `unsigned long` / `size_t` on the 32-bit target. -/
def UINT32_MOD : Nat := 4294967296

/-- C unsigned 32-bit subtraction `a - b` (wraparound), as in `millis() - stateTime`. -/
def wrapSub (a b : Nat) : Nat :=
  (a % UINT32_MOD + UINT32_MOD - b % UINT32_MOD) % UINT32_MOD

/-- The C `size_t` expression `dataSize - 1` (wraps to `2^32 - 1` when `dataSize = 0`). -/
def sizeSub1 (n : Nat) : Nat :=
  (n % UINT32_MOD + UINT32_MOD - 1) % UINT32_MOD

/-- `CloudConfig::DATA_MAGIC` (0x7251dd53). -/
def DATA_MAGIC : Nat := 0x7251dd53

/-- `sizeof(CloudConfigDataHeader)`: u32 + u8 + u8 + u16 + i32 + u32 + u32 = 20 bytes. -/
def HEADER_SIZE : Nat := 20

/-- The persisted record header `CloudConfigDataHeader`. -/
structure CloudConfigDataHeader where
  magic : Nat
  headerSize : Nat
  flags : Nat
  dataSize : Nat
  lastCheck : Int
  reserved2 : Nat
  reserved1 : Nat
deriving DecidableEq, Repr

/-- The in-memory state of `CloudConfigStorageData`: the header, the
`dataSize` bytes of JSON buffer that follow it, the configured `dataSize`
member, and the parsed tree `jsonObj` from the `CloudConfigStorage` base. -/
structure StorageData (J : Type) where
  header : CloudConfigDataHeader
  jsonData : List Nat
  dataSize : Nat
  jsonObj : J
deriving DecidableEq, Repr

/-- The C string held in a byte buffer: the bytes before the first 0. -/
def cString (buf : List Nat) : List Nat :=
  buf.takeWhile (fun b => b != 0)

/-- `CloudConfigStorage::hasJsonData`: `getJsonData()[0] != 0`. -/
def hasJsonData {J : Type} (s : StorageData J) : Bool :=
  s.jsonData.headD 0 != 0

/-- `CloudConfigStorage::parse`: `jsonObj = JSONValue::parseCopy(getJsonData())`. -/
def parseStore {J : Type} (parseFn : List Nat → J) (s : StorageData J) : StorageData J :=
  { s with jsonObj := parseFn (cString s.jsonData) }

/-- The validity test of `CloudConfigStorageData::validate`:
`header->magic == CloudConfig::DATA_MAGIC && header->headerSize ==
(uint8_t)sizeof(CloudConfigDataHeader) && header->dataSize ==
(uint16_t)dataSize`. -/
def headerValidB {J : Type} (s : StorageData J) : Bool :=
  s.header.magic == DATA_MAGIC && s.header.headerSize == HEADER_SIZE &&
    s.header.dataSize == s.dataSize % 65536

/-- The header produced by the reinitialization branch of `validate`:
`memset(header, 0, ...)` then magic, headerSize and dataSize are set. -/
def emptyHeader (dataSize : Nat) : CloudConfigDataHeader :=
  { magic := DATA_MAGIC, headerSize := HEADER_SIZE, flags := 0,
    dataSize := dataSize % 65536, lastCheck := 0, reserved2 := 0, reserved1 := 0 }

/-- `CloudConfigStorageData::validate`: keep a valid record, otherwise wipe
the header and the payload (`memset(getJsonData(), 0, dataSize)`); then `parse()`. -/
def validate {J : Type} (parseFn : List Nat → J) (s : StorageData J) : StorageData J :=
  if headerValidB s then
    parseStore parseFn s
  else
    parseStore parseFn
      { s with header := emptyHeader s.dataSize,
               jsonData := List.replicate s.dataSize 0 }

/-- `strcpy(getJsonData(), json)`: the string's bytes and terminator overwrite
the front of the buffer; bytes past the terminator are untouched. -/
def strcpyBuf (buf json : List Nat) : List Nat :=
  json ++ 0 :: buf.drop (json.length + 1)

/-- `CloudConfigStorageData::updateData`: reject when
`!(strlen(json) < dataSize - 1)`, else copy, `parse()`, and return `save()`;
the backend save result is the parameter `saveResult`. -/
def updateData {J : Type} (parseFn : List Nat → J) (s : StorageData J)
    (json : List Nat) (saveResult : Bool) : StorageData J × Bool :=
  if json.length < sizeSub1 s.dataSize then
    (parseStore parseFn { s with jsonData := strcpyBuf s.jsonData json }, saveResult)
  else
    (s, false)

/-- The loop body of `CloudConfigStorage::getJSONValueAtIndex`: `ii` is
initialized to 0 before the loop and — as in the source — never incremented;
`iter.next()` successively yields the entries of the parent value. -/
def getJSONValueAtIndexLoop {J : Type} (entries : List J) (ii index : Nat) : Option J :=
  match entries with
  | [] => none
  | e :: rest => if ii == index then some e else getJSONValueAtIndexLoop rest ii index

/-- `CloudConfigStorage::getJSONValueAtIndex(parentObj, index)` over the list
of child entries of the parent value. -/
def getJSONValueAtIndex {J : Type} (entries : List J) (index : Nat) : Option J :=
  getJSONValueAtIndexLoop entries 0 index

/-- The bytes held by the EEPROM backend region: `EEPROM.put(eepromOffset,
dataBuffer)` stores the header and the JSON buffer. -/
structure EEPROMImage where
  header : CloudConfigDataHeader
  jsonData : List Nat
deriving DecidableEq, Repr

/-- `CloudConfigStorageEEPROM::save`: `EEPROM.put(eepromOffset, dataBuffer)`. -/
def eepromSave {J : Type} (s : StorageData J) : EEPROMImage :=
  { header := s.header, jsonData := s.jsonData }

/-- `CloudConfigStorageEEPROM::setup`: `EEPROM.get(eepromOffset, dataBuffer);
validate();` — load the stored image into the buffer, then validate (which
parses).  `jsonObj0` is the pre-parse value of `jsonObj`. -/
def eepromSetup {J : Type} (parseFn : List Nat → J) (img : EEPROMImage)
    (dataSize : Nat) (jsonObj0 : J) : StorageData J :=
  validate parseFn
    { header := img.header, jsonData := img.jsonData, dataSize := dataSize,
      jsonObj := jsonObj0 }

/-- The state handler currently installed in `CloudConfig::stateHandler`. -/
inductive StateTag where
  | start
  | waitCloudConnected
  | waitAfterCloudConnected
  | waitToUpdate
  | startUpdate
  | waitUpdateComplete
deriving DecidableEq, Repr

/-- `CloudConfig::UpdateDataStatus`. -/
inductive UpdateDataStatus where
  | idle
  | inProgress
  | success
  | failure
  | timeout
deriving DecidableEq, Repr

/-- `CloudConfig::UPDATE_ONCE` (0). -/
def UPDATE_ONCE : Int := 0

/-- `CloudConfig::UPDATE_AT_RESTART` (-1). -/
def UPDATE_AT_RESTART : Int := -1

/-- The host primitives read during one pass of `CloudConfig::loop`:
`Particle.connected()`, `Time.isValid()`, `Time.now()` and `millis()`. -/
structure Env where
  connected : Bool
  timeValid : Bool
  timeNow : Int
  millis : Nat
deriving DecidableEq, Repr

/-- The `CloudConfig` engine state visible to the state handlers: the
installed handler, `stateTime`, `updateDataStatus`, `updateFrequency`, the
storage fields the handlers read or write (`storageMethod->hasJsonData()`
and `storageMethod->getDataHeader()->lastCheck`), whether a `dataCallback`
is registered, and the update method's two tunables. -/
structure EngineState where
  tag : StateTag
  stateTime : Nat
  updateDataStatus : UpdateDataStatus
  updateFrequency : Int
  hasJsonData : Bool
  lastCheck : Int
  hasDataCallback : Bool
  waitAfterCloudConnectedMs : Nat
  updateTimeoutMs : Nat
deriving DecidableEq, Repr

/-- One pass of the `CloudConfig` state machine (the `stateHandler(*this)`
call inside `CloudConfig::loop`), with no external `updateData` /
`updateDataFailed` call in between.  The second component records whether
this pass invoked the `dataCallback` notification (only `stateStart` can). -/
def tick (env : Env) (s : EngineState) : EngineState × Bool :=
  match s.tag with
  | .start =>
    ({ s with tag := .waitCloudConnected }, s.hasJsonData && s.hasDataCallback)
  | .waitCloudConnected =>
    if env.connected = false ∨ env.timeValid = false then (s, false)
    else ({ s with tag := .waitAfterCloudConnected, stateTime := env.millis }, false)
  | .waitAfterCloudConnected =>
    if wrapSub env.millis s.stateTime < s.waitAfterCloudConnectedMs then (s, false)
    else if s.hasJsonData = false ∨ s.updateFrequency = UPDATE_AT_RESTART then
      ({ s with tag := .startUpdate }, false)
    else
      ({ s with tag := .waitToUpdate, stateTime := env.millis }, false)
  | .waitToUpdate =>
    if wrapSub env.millis s.stateTime < 10000 then (s, false)
    else if env.timeValid = true ∧ s.updateFrequency > 0 then
      if env.timeNow - s.lastCheck > s.updateFrequency then
        ({ s with tag := .startUpdate }, false)
      else (s, false)
    else (s, false)
  | .startUpdate =>
    ({ s with lastCheck := env.timeNow, updateDataStatus := .inProgress,
              stateTime := env.millis, tag := .waitUpdateComplete }, false)
  | .waitUpdateComplete =>
    if s.updateDataStatus = .inProgress then
      if wrapSub env.millis s.stateTime > s.updateTimeoutMs then
        ({ s with updateDataStatus := .timeout, stateTime := env.millis,
                  tag := .waitToUpdate }, false)
      else (s, false)
    else
      ({ s with stateTime := env.millis, tag := .waitToUpdate }, false)

/-- Repeated ticks of the engine with no external `updateData` /
`updateDataFailed` calls; the Bool records whether any tick invoked the
notification callback. -/
def run (envs : List Env) (s : EngineState) : EngineState × Bool :=
  match envs with
  | [] => (s, false)
  | e :: rest =>
    let r := tick e s
    let r2 := run rest r.1
    (r2.1, r.2 || r2.2)

/-- `CloudConfig::updateData(json)`: set `updateDataStatus = SUCCESS`, call
`storageMethod->updateData(json)` discarding its result, invoke the
`dataCallback` if registered, and return true.  The result tuple is
(engine state, store state, returned Bool, whether the callback ran). -/
def engineUpdateData {J : Type} (parseFn : List Nat → J) (s : EngineState)
    (store : StorageData J) (json : List Nat) (saveResult : Bool) :
    EngineState × StorageData J × Bool × Bool :=
  ({ s with updateDataStatus := .success },
   (updateData parseFn store json saveResult).1,
   true,
   s.hasDataCallback)

/-- `CloudConfig::updateDataFailed`: set `updateDataStatus = FAILURE`. -/
def engineUpdateDataFailed (s : EngineState) : EngineState :=
  { s with updateDataStatus := .failure }

/-- A sample valid record with `dataSize = 3` holding the payload "A",
used to instantiate theorems at concrete inputs. -/
def sampleStore : StorageData (List Nat) :=
  { header := { magic := DATA_MAGIC, headerSize := HEADER_SIZE, flags := 0,
                dataSize := 3, lastCheck := 0, reserved2 := 0, reserved1 := 0 },
    jsonData := [65, 0, 0], dataSize := 3, jsonObj := [] }

theorem cString_append_zero (json t : List Nat) (h : ∀ b ∈ json, b ≠ 0) :
    cString (json ++ 0 :: t) = json := by
  induction json with
  | nil => simp [cString]
  | cons a l ih =>
    have ha : a ≠ 0 := h a (List.mem_cons_self a l)
    have hl : ∀ b ∈ l, b ≠ 0 := fun b hb => h b (List.mem_cons_of_mem a hb)
    have ha2 : (a != 0) = true := by simpa using ha
    simpa [cString, ha2] using ih hl

theorem sizeSub1_eq (n : Nat) (h1 : 0 < n) (h2 : n < UINT32_MOD) :
    sizeSub1 n = n - 1 := by
  unfold sizeSub1 UINT32_MOD at *
  omega

theorem getJSONValueAtIndexLoop_zero {J : Type} (entries : List J) (index : Nat) :
    getJSONValueAtIndexLoop entries 0 index =
      if index = 0 then entries.head? else none := by
  induction entries with
  | nil => simp [getJSONValueAtIndexLoop]
  | cons e rest ih =>
    by_cases h : index = 0
    · subst h
      simp [getJSONValueAtIndexLoop]
    · have h0 : (0 == index) = false := by
        simpa using fun he => h he.symm
      simp [getJSONValueAtIndexLoop, h0, ih, h]

/-- C1: the source rejects a payload whose length is `declaredCapacity - 1`
(the test is `jsonLen < dataSize - 1`), contradicting the claim (and the
header's own documentation) that only `len(x) >= declaredCapacity` fails and
that `len(x) == declaredCapacity - 1` succeeds. -/
theorem c1_capacity_minus_one_rejected {J : Type} (parseFn : List Nat → J)
    (s : StorageData J) (json : List Nat) (saveResult : Bool)
    (hlen : json.length = s.dataSize - 1) (h1 : 0 < s.dataSize)
    (h2 : s.dataSize < UINT32_MOD) :
    updateData parseFn s json saveResult = (s, false) := by
  have hs : sizeSub1 s.dataSize = s.dataSize - 1 := sizeSub1_eq _ h1 h2
  unfold updateData
  rw [hs, hlen]
  simp

/-- Witness for C1 at a concrete input: capacity 3, payload "BB" of length 2. -/
theorem c1_capacity_minus_one_rejected_witness :
    updateData (fun l : List Nat => l) sampleStore [66, 66] true = (sampleStore, false) :=
  c1_capacity_minus_one_rejected (fun l => l) sampleStore [66, 66] true
    (by decide) (by decide) (by decide)

/-- C2: `getJSONValueAtIndex` does not return the i-th entry: because `ii`
is never incremented in the loop, index 0 yields the first entry and every
index >= 1 yields the absent value no matter how many entries exist. -/
theorem c2_index_lookup_bug {J : Type} (entries : List J) (index : Nat) :
    getJSONValueAtIndex entries index =
      if index = 0 then entries.head? else none :=
  getJSONValueAtIndexLoop_zero entries index

/-- C3: after `validate` the record (header and payload bytes) is either
unchanged and valid, or reset to the canonical empty form (correct magic and
sizes, zero `lastCheck`, payload all zero); and `hasJsonData` being true
implies the header passes validation. -/
theorem validate_of_valid {J : Type} (parseFn : List Nat → J) (s : StorageData J)
    (h : headerValidB s = true) :
    validate parseFn s = parseStore parseFn s := by
  unfold validate
  rw [h]
  simp

theorem validate_of_invalid {J : Type} (parseFn : List Nat → J) (s : StorageData J)
    (h : headerValidB s = false) :
    validate parseFn s =
      parseStore parseFn
        { s with header := emptyHeader s.dataSize,
                 jsonData := List.replicate s.dataSize 0 } := by
  unfold validate
  rw [h]
  simp

theorem headerValidB_validate {J : Type} (parseFn : List Nat → J) (s : StorageData J) :
    headerValidB (validate parseFn s) = true := by
  by_cases h : headerValidB s = true
  · rw [validate_of_valid parseFn s h]
    exact h
  · have hf : headerValidB s = false := by simpa using h
    rw [validate_of_invalid parseFn s hf]
    simp [headerValidB, parseStore, emptyHeader]

theorem c3_validate_invariant {J : Type} (parseFn : List Nat → J) (s : StorageData J) :
    ((headerValidB s = true ∧ (validate parseFn s).header = s.header ∧
        (validate parseFn s).jsonData = s.jsonData) ∨
      (headerValidB s = false ∧ (validate parseFn s).header = emptyHeader s.dataSize ∧
        (validate parseFn s).jsonData = List.replicate s.dataSize 0)) ∧
    (hasJsonData (validate parseFn s) = true → headerValidB (validate parseFn s) = true) := by
  refine ⟨?_, fun _ => headerValidB_validate parseFn s⟩
  by_cases h : headerValidB s = true
  · exact Or.inl ⟨h, by rw [validate_of_valid parseFn s h]; rfl,
      by rw [validate_of_valid parseFn s h]; rfl⟩
  · have hf : headerValidB s = false := by simpa using h
    exact Or.inr ⟨hf, by rw [validate_of_invalid parseFn s hf]; rfl,
      by rw [validate_of_invalid parseFn s hf]; rfl⟩

/-- Witness for C3 at a concrete input: a valid record with non-empty payload. -/
theorem c3_validate_invariant_witness :
    headerValidB (validate (fun l : List Nat => l) sampleStore) = true :=
  (c3_validate_invariant (fun l => l) sampleStore).2 (by decide)

/-- C4: a payload rejected as too large leaves the store (payload bytes,
header and parsed tree) exactly as it was. -/
theorem c4_reject_preserves_state {J : Type} (parseFn : List Nat → J)
    (s : StorageData J) (json : List Nat) (saveResult : Bool)
    (h : ¬ json.length < sizeSub1 s.dataSize) :
    updateData parseFn s json saveResult = (s, false) := by
  simp [updateData, h]

/-- Witness for C4 at a concrete input: payload of length 3 against capacity 3. -/
theorem c4_reject_preserves_state_witness :
    updateData (fun l : List Nat => l) sampleStore [66, 66, 66] true = (sampleStore, false) :=
  c4_reject_preserves_state (fun l => l) sampleStore [66, 66, 66] true (by decide)

/-- C5: an accepted payload is copied and reparsed regardless of the save
result: the resulting in-memory payload is `json`, the parsed tree is
`parseFn json`, the returned Bool is exactly the save result, and the store
state does not depend on the save result. -/
theorem c5_accept_updates_memory_before_save {J : Type} (parseFn : List Nat → J)
    (s : StorageData J) (json : List Nat) (saveResult : Bool)
    (hlen : json.length < sizeSub1 s.dataSize) (hz : ∀ b ∈ json, b ≠ 0) :
    cString ((updateData parseFn s json saveResult).1.jsonData) = json ∧
    (updateData parseFn s json saveResult).1.jsonObj = parseFn json ∧
    (updateData parseFn s json saveResult).2 = saveResult ∧
    (updateData parseFn s json saveResult).1 = (updateData parseFn s json true).1 := by
  have key : cString (strcpyBuf s.jsonData json) = json := by
    unfold strcpyBuf
    exact cString_append_zero json _ hz
  simp [updateData, hlen, parseStore, key]

/-- Witness for C5 at a concrete input: payload "B" accepted, save fails. -/
theorem c5_accept_updates_memory_before_save_witness :
    cString ((updateData (fun l : List Nat => l) sampleStore [66] false).1.jsonData) = [66] ∧
    (updateData (fun l : List Nat => l) sampleStore [66] false).1.jsonObj = [66] ∧
    (updateData (fun l : List Nat => l) sampleStore [66] false).2 = false ∧
    (updateData (fun l : List Nat => l) sampleStore [66] false).1 =
      (updateData (fun l : List Nat => l) sampleStore [66] true).1 :=
  c5_accept_updates_memory_before_save (fun l => l) sampleStore [66] false
    (by decide) (by decide)

/-- C9 (amended): for a previously validated store and a payload the code
accepts (`len(json) < dataSize - 1`, null-free), `updateData` followed by the
EEPROM backend's `setup()` (load, validate, parse) yields a store whose
payload equals the payload that was written. -/
theorem c9_roundtrip_accepted {J : Type} (parseFn : List Nat → J) (s : StorageData J)
    (json : List Nat) (jsonObj0 : J)
    (hvalid : headerValidB s = true)
    (hlen : json.length < sizeSub1 s.dataSize)
    (hz : ∀ b ∈ json, b ≠ 0) :
    cString ((eepromSetup parseFn (eepromSave ((updateData parseFn s json true).1))
        s.dataSize jsonObj0).jsonData) = json := by
  have key : cString (strcpyBuf s.jsonData json) = json := by
    unfold strcpyBuf
    exact cString_append_zero json _ hz
  have h1 : updateData parseFn s json true =
      (parseStore parseFn { s with jsonData := strcpyBuf s.jsonData json }, true) := by
    simp [updateData, hlen]
  rw [h1]
  have hv : headerValidB
      ({ header := s.header, jsonData := strcpyBuf s.jsonData json,
         dataSize := s.dataSize, jsonObj := jsonObj0 } : StorageData J) = true := hvalid
  unfold eepromSave eepromSetup parseStore
  dsimp only
  rw [validate_of_valid _ _ hv]
  unfold parseStore
  exact key

/-- Witness for C9 (amended) at a concrete input: payload "B" against the
sample capacity-3 store. -/
theorem c9_roundtrip_accepted_witness :
    cString ((eepromSetup (fun l : List Nat => l)
        (eepromSave ((updateData (fun l : List Nat => l) sampleStore [66] true).1))
        3 []).jsonData) = [66] :=
  c9_roundtrip_accepted (fun l => l) sampleStore [66] []
    (by decide) (by decide) (by decide)

/-- The tags of the permanent operating loop of the state machine. -/
def inSteadyLoop (s : EngineState) : Prop :=
  s.tag = .waitToUpdate ∨ s.tag = .startUpdate ∨ s.tag = .waitUpdateComplete

theorem tick_steady (env : Env) (s : EngineState) (h : inSteadyLoop s) :
    (tick env s).2 = false ∧ inSteadyLoop (tick env s).1 := by
  unfold inSteadyLoop at h ⊢
  rcases h with h | h | h
  · unfold tick
    rw [h]
    split_ifs <;> simp [h]
  · unfold tick
    rw [h]
    simp
  · unfold tick
    rw [h]
    split_ifs <;> simp [h]

theorem run_steady (envs : List Env) (s : EngineState) (h : inSteadyLoop s) :
    (run envs s).2 = false := by
  induction envs generalizing s with
  | nil => rfl
  | cons e rest ih =>
    have hstep := tick_steady e s h
    simp [run, hstep.1, ih _ hstep.2]

/-- Sample engine state waiting on an in-flight update that never completes. -/
def sampleEngineWUC : EngineState :=
  { tag := .waitUpdateComplete, stateTime := 0, updateDataStatus := .inProgress,
    updateFrequency := 0, hasJsonData := true, lastCheck := 0, hasDataCallback := true,
    waitAfterCloudConnectedMs := 2000, updateTimeoutMs := 60000 }

/-- Sample environment observed just past the 60-second update timeout. -/
def sampleEnvLate : Env :=
  { connected := true, timeValid := true, timeNow := 100, millis := 60001 }

/-- Sample engine state in WaitAfterCloudConnected with data present and
the AT_RESTART policy. -/
def sampleEngineWAC : EngineState :=
  { tag := .waitAfterCloudConnected, stateTime := 0, updateDataStatus := .idle,
    updateFrequency := UPDATE_AT_RESTART, hasJsonData := true, lastCheck := 0,
    hasDataCallback := true, waitAfterCloudConnectedMs := 2000, updateTimeoutMs := 60000 }

/-- Sample environment observed once the 2-second post-connect wait elapsed. -/
def sampleEnv2s : Env :=
  { connected := true, timeValid := true, timeNow := 100, millis := 2000 }

/-- Sample engine state in WaitToUpdate with an hourly policy. -/
def sampleEngineWTU : EngineState :=
  { tag := .waitToUpdate, stateTime := 0, updateDataStatus := .idle,
    updateFrequency := 3600, hasJsonData := true, lastCheck := 0, hasDataCallback := true,
    waitAfterCloudConnectedMs := 2000, updateTimeoutMs := 60000 }

/-- Sample environment on a 10-second check tick with `lastCheck` 3700 s stale. -/
def sampleEnvStale : Env :=
  { connected := true, timeValid := true, timeNow := 3700, millis := 10000 }

/-- C6: in WaitUpdateComplete with the outcome still in progress and no
external `updateData`/`updateDataFailed` call, a tick past `updateTimeoutMs`
marks the outcome timed-out and moves to WaitToUpdate, a tick before the
timeout changes nothing, and no tick of the episode (nor any later tick of
the steady loop) invokes the notification callback. -/
theorem c6_timeout_no_callback (env : Env) (envs : List Env) (s : EngineState)
    (htag : s.tag = .waitUpdateComplete)
    (hst : s.updateDataStatus = .inProgress) :
    (tick env s).2 = false ∧
    (wrapSub env.millis s.stateTime > s.updateTimeoutMs →
      (tick env s).1.updateDataStatus = .timeout ∧ (tick env s).1.tag = .waitToUpdate) ∧
    (¬ wrapSub env.millis s.stateTime > s.updateTimeoutMs → (tick env s).1 = s) ∧
    (run envs s).2 = false := by
  have hrun := run_steady envs s (Or.inr (Or.inr htag))
  by_cases htime : wrapSub env.millis s.stateTime > s.updateTimeoutMs
  · refine ⟨?_, fun _ => ⟨?_, ?_⟩, fun hc => absurd htime hc, hrun⟩ <;>
      (unfold tick; rw [htag]; simp [hst, htime])
  · refine ⟨?_, fun hc => absurd hc htime, fun _ => ?_, hrun⟩ <;>
      (unfold tick; rw [htag]; simp [hst, htime])

/-- Witness for C6 at a concrete input: one tick observed at 60001 ms times
out the in-flight update. -/
theorem c6_timeout_no_callback_witness :
    (tick sampleEnvLate sampleEngineWUC).1.updateDataStatus = .timeout ∧
    (tick sampleEnvLate sampleEngineWUC).1.tag = .waitToUpdate :=
  (c6_timeout_no_callback sampleEnvLate [] sampleEngineWUC rfl rfl).2.1 (by decide)

/-- C7: in WaitAfterCloudConnected, once `waitAfterCloudConnectedMs` has
elapsed the engine moves to StartUpdate exactly when the store has no data or
the policy is AT_RESTART, and otherwise moves to WaitToUpdate recording the
current timestamp; with the AT_RESTART policy StartUpdate is reached even
when data is present. -/
theorem c7_wait_after_connected (env : Env) (s : EngineState)
    (htag : s.tag = .waitAfterCloudConnected)
    (helapsed : ¬ wrapSub env.millis s.stateTime < s.waitAfterCloudConnectedMs) :
    ((tick env s).1.tag = .startUpdate ↔
      (s.hasJsonData = false ∨ s.updateFrequency = UPDATE_AT_RESTART)) ∧
    (¬ (s.hasJsonData = false ∨ s.updateFrequency = UPDATE_AT_RESTART) →
      (tick env s).1 = { s with tag := .waitToUpdate, stateTime := env.millis }) ∧
    (s.updateFrequency = UPDATE_AT_RESTART → (tick env s).1.tag = .startUpdate) ∧
    (tick env s).2 = false := by
  by_cases hcond : s.hasJsonData = false ∨ s.updateFrequency = UPDATE_AT_RESTART
  · have ht : tick env s = ({ s with tag := .startUpdate }, false) := by
      unfold tick
      rw [htag]
      simp [helapsed, hcond]
    refine ⟨⟨fun _ => hcond, fun _ => by rw [ht]⟩, fun hc => absurd hcond hc,
      fun _ => by rw [ht], by rw [ht]⟩
  · have ht : tick env s = ({ s with tag := .waitToUpdate, stateTime := env.millis }, false) := by
      unfold tick
      rw [htag]
      simp [helapsed, hcond]
    refine ⟨?_, fun _ => by rw [ht], fun hfreq => absurd (Or.inr hfreq) hcond, by rw [ht]⟩
    rw [ht]
    simp [hcond]

/-- Witness for C7 at a concrete input: data already present, policy
AT_RESTART, tick at 2000 ms reaches StartUpdate. -/
theorem c7_wait_after_connected_witness :
    (tick sampleEnv2s sampleEngineWAC).1.tag = .startUpdate :=
  (c7_wait_after_connected sampleEnv2s sampleEngineWAC rfl (by decide)).2.2.1 rfl

/-- C8: in WaitToUpdate (with a valid clock) a tick moves to StartUpdate
exactly when the 10-second check period has elapsed, the policy is periodic
(> 0) and `now - lastCheck` exceeds the policy interval; under the ONCE or
AT_RESTART policies the tick leaves the state unchanged. -/
theorem c8_wait_to_update (env : Env) (s : EngineState)
    (htag : s.tag = .waitToUpdate) (htv : env.timeValid = true) :
    ((tick env s).1.tag = .startUpdate ↔
      (10000 ≤ wrapSub env.millis s.stateTime ∧ 0 < s.updateFrequency ∧
        s.updateFrequency < env.timeNow - s.lastCheck)) ∧
    ((s.updateFrequency = UPDATE_ONCE ∨ s.updateFrequency = UPDATE_AT_RESTART) →
      tick env s = (s, false)) ∧
    (tick env s).2 = false := by
  by_cases h1 : wrapSub env.millis s.stateTime < 10000
  · have ht : tick env s = (s, false) := by
      unfold tick
      rw [htag]
      simp [h1]
    refine ⟨?_, fun _ => ht, by rw [ht]⟩
    rw [ht]
    simp only [htag]
    constructor
    · intro hx
      exact absurd hx (by simp)
    · rintro ⟨h10, _⟩
      omega
  · by_cases h2 : env.timeValid = true ∧ s.updateFrequency > 0
    · by_cases h3 : env.timeNow - s.lastCheck > s.updateFrequency
      · have ht : tick env s = ({ s with tag := .startUpdate }, false) := by
          unfold tick
          rw [htag]
          simp [h1, h2, h3]
        refine ⟨?_, fun hc => ?_, by rw [ht]⟩
        · rw [ht]
          exact ⟨fun _ => ⟨by omega, h2.2, h3⟩, fun _ => rfl⟩
        · exfalso
          have hpos := h2.2
          rcases hc with hc | hc <;> rw [hc] at hpos <;>
            simp [UPDATE_ONCE, UPDATE_AT_RESTART] at hpos
      · have ht : tick env s = (s, false) := by
          unfold tick
          rw [htag]
          simp [h1, h2, h3]
        refine ⟨?_, fun _ => ht, by rw [ht]⟩
        rw [ht]
        simp only [htag]
        constructor
        · intro hx
          exact absurd hx (by simp)
        · rintro ⟨_, _, hlt⟩
          exact absurd hlt h3
    · have ht : tick env s = (s, false) := by
        unfold tick
        rw [htag]
        simp [h1, h2]
      refine ⟨?_, fun _ => ht, by rw [ht]⟩
      rw [ht]
      simp only [htag]
      constructor
      · intro hx
        exact absurd hx (by simp)
      · rintro ⟨_, hpos, _⟩
        exact absurd ⟨htv, hpos⟩ h2

/-- Witness for C8 at a concrete input: hourly policy, `lastCheck` 3700 s
stale, check tick at 10000 ms triggers StartUpdate. -/
theorem c8_wait_to_update_witness :
    (tick sampleEnvStale sampleEngineWTU).1.tag = .startUpdate :=
  (c8_wait_to_update sampleEnvStale sampleEngineWTU rfl rfl).1.mpr (by decide)

/-- C10: the engine-level `updateData` returns true, sets the outcome to
SUCCESS and invokes the notification callback exactly when one is registered,
for every payload and store state — the store's Bool result is discarded. -/
theorem c10_engine_update_unconditional {J : Type} (parseFn : List Nat → J)
    (s : EngineState) (store : StorageData J) (json : List Nat) (saveResult : Bool) :
    (engineUpdateData parseFn s store json saveResult).2.2.1 = true ∧
    (engineUpdateData parseFn s store json saveResult).1.updateDataStatus = .success ∧
    (engineUpdateData parseFn s store json saveResult).2.2.2 = s.hasDataCallback :=
  ⟨rfl, rfl, rfl⟩

/-- C9 counterexample: capacity 3, stored payload "A"; the payload "BB" has
length `declaredCapacity - 1` = 2 — within capacity per the claim — yet
`updateData` followed by reloading the same backend storage yields a store
whose payload is still "A", not "BB". -/
theorem c9_roundtrip_counterexample :
    ([66, 66] : List Nat).length = 3 - 1 ∧
    cString ((eepromSetup (fun l : List Nat => l)
        (eepromSave ((updateData (fun l : List Nat => l) sampleStore [66, 66] true).1))
        3 []).jsonData) ≠ [66, 66] := by decide
